import Mathlib

/-!
Verification development for the `actix-web-middleware-slogger` crate
(`src/logger.rs`, `src/wrapper.rs`).

The middleware is embedded shallowly:

* `Field` mirrors `logger.rs`'s `pub enum Field` (with the default feature
  set: `log` enabled, `tracing-request-id` and `uuid_v7` disabled, so the
  `TracingRequestId` variant is compiled out).
* The three render passes `Field.render_request`, `Field.render_response`
  and `Field.render` are direct translations of the corresponding `impl
  Field` methods; in-place mutation (`*self = ...`) becomes a function
  returning the new field.
* Effects are made explicit parameters: `OffsetDateTime::now_utc()` becomes
  an `Int` timestamp argument (nanoseconds), `RequestId::new()` becomes a
  `freshId : String` argument (its hyphenated rendering), and
  `std::env::var` becomes a lookup in an explicit association list.
* Compiled regexes and header values are data of external crates (the spec
  treats regex compilation and the HTTP header data model as external
  collaborators), so a compiled matcher is embedded as a plain predicate
  `String → Bool` and a header value carries its `to_str()` result:
  `none` models bytes that are not valid UTF-8 (`to_str()` errors).
* External formatting routines of the `time` crate (`Rfc3339` format) and
  `f64` display are abstracted by concrete stand-in string functions; no
  claim below inspects the text they produce, only which key/value slots
  they land in and the exact rational quantity being formatted.
-/

namespace Slogger

/-- A header value, as seen through `HeaderValue::to_str()`: `asStr? = none`
models a value whose bytes are not valid UTF-8 (`to_str()` returns `Err`). -/
structure HeaderVal where
  asStr? : Option String
deriving DecidableEq, Repr

/-- A header map: association list keyed by the lower-cased header name
(`HeaderName` normalises to lowercase). `get` returns the first value for
the name, mirroring `HeaderMap::get`. -/
def Headers := List (String × HeaderVal)
deriving DecidableEq, Repr

def Headers.get (hs : Headers) (name : String) : Option HeaderVal :=
  match hs with
  | [] => none
  | (n, v) :: rest => if n = name then some v else Headers.get rest name

/-- HTTP protocol versions distinguished by `render_request`'s `Version` arm. -/
inductive HttpVersion where
  | http09 | http10 | http11 | http2 | http3 | other
deriving DecidableEq, Repr

/-- The label the `Version` arm of `render_request` assigns to each version. -/
def versionLabel : HttpVersion → String
  | .http09 => "HTTP/0.9"
  | .http10 => "HTTP/1.0"
  | .http11 => "HTTP/1.1"
  | .http2  => "HTTP/2.0"
  | .http3  => "HTTP/3.0"
  | .other  => "unknown"

/-- The request surface `render_request` consumes from `ServiceRequest`:
`req.method().to_string()`, `req.path()`, `req.query_string()`,
`req.version()`, `req.connection_info().host()/peer_addr()/realip_remote_addr()`
and `req.headers()`. `path` excludes the query string, per `req.path()`'s
contract in actix-web. -/
structure ServiceRequest where
  method : String
  path : String
  queryString : String
  version : HttpVersion
  host : String
  peerAddr : Option String
  realipRemoteAddr : Option String
  headers : Headers
deriving DecidableEq, Repr

/-- The response surface `render_response` consumes from `ServiceResponse`:
`res.status().to_string()` (e.g. "200 OK") and `res.headers()`. -/
structure ServiceResponse where
  status : String
  headers : Headers
deriving DecidableEq, Repr

/-- `pub enum Field` from `logger.rs` (default features; header names are
carried as their lowercase strings, `HeaderName::to_string()`). -/
inductive Field where
  | KV (k : String) (v : Option String)
  | Method
  | Status
  | Path
  | Params
  | Version
  | Host
  | RemoteAddr
  | RealIp
  | RequestId (header : String)
  | RequestHeader (header : String)
  | ResponseHeader (header : String)
  | Size
  | Duration
  | DurationMillis
  | RequestTime
  | UserAgent
  | Referer
  | Environment (name : String)
deriving DecidableEq, Repr

/-- Stand-in for the `time` crate's RFC 3339 formatting of the arrival
timestamp (nanoseconds since epoch); the claims below never inspect the
produced text, only where it is placed. -/
def rfc3339 (ns : Int) : String := toString ns

/-- Stand-in for Rust `f64` display of a duration quantity; the duration
value is tracked exactly as a rational, and the claims below only inspect
which rational is being formatted. -/
def f64Str (q : Rat) : String := toString q.num ++ "/" ++ toString q.den

/-- `rt.as_seconds_f64()` of a `time::Duration` of `ns` nanoseconds
(durations carry nanosecond precision). -/
def secondsF (ns : Int) : Rat := (ns : Rat) / 1000000000

/-- `(rt.whole_nanoseconds() as f64) / 1_000_000.0` for a duration of `ns`
nanoseconds. -/
def millisF (ns : Int) : Rat := (ns : Rat) / 1000000

/-- `Field::render_request` (request-time pass). `now` is the timestamp the
caller obtained from `OffsetDateTime::now_utc()`; `freshId` is the
hyphenated rendering of the `RequestId::new()` uuid that would be generated
if the request-id header is absent (the source also stores that id in the
request's extensions; the claims below do not consume the extensions). -/
def Field.render_request (now : Int) (freshId : String) (req : ServiceRequest) :
    Field → Field
  | .Method => .KV "method" (some req.method)
  | .Version => .KV "version" (some (versionLabel req.version))
  | .Path => .KV "path" (some req.path)
  | .Params => .KV "params" (some req.queryString)
  | .Host => .KV "host" (some req.host)
  | .RemoteAddr => .KV "remote_addr" req.peerAddr
  | .RealIp => .KV "real_ip" req.realipRemoteAddr
  | .RequestId h =>
      match req.headers.get h with
      | some val => .KV h (some (val.asStr?.getD ""))
      | none => .KV h (some freshId)
  | .RequestHeader h =>
      match req.headers.get h with
      | some val => .KV h (some (val.asStr?.getD ""))
      | none => .KV h none
  | .RequestTime => .KV "datetime" (some (rfc3339 now))
  | .UserAgent =>
      .KV "user_agent" ((req.headers.get "user-agent").map (fun v => v.asStr?.getD ""))
  | .Referer =>
      .KV "referer" ((req.headers.get "referer").map (fun v => v.asStr?.getD ""))
  | f => f

/-- `Field::render_response` (response-time pass). -/
def Field.render_response (res : ServiceResponse) : Field → Field
  | .Status => .KV "status" (some res.status)
  | .ResponseHeader h =>
      match res.headers.get h with
      | some val => .KV h (some (val.asStr?.getD ""))
      | none => .KV h none
  | f => f

/-- `std::env::var`: `Ok` exactly when the variable is set (to unicode);
embedded as lookup in an explicit environment association list. -/
def envVar (env : List (String × String)) (name : String) : Option String :=
  match env with
  | [] => none
  | (n, v) :: rest => if n = name then some v else envVar rest name

/-- `Field::render` (completion pass). `now` is the timestamp
`OffsetDateTime::now_utc()` yields inside `render`, `entry` the stored
arrival time, `size` the accumulated byte count,
`env` the process environment. -/
def Field.render (now : Int) (env : List (String × String)) (size : Nat)
    (entry : Int) : Field → Field
  | .Duration => .KV "duration" (some (f64Str (secondsF (now - entry))))
  | .DurationMillis => .KV "duration" (some (f64Str (millisF (now - entry))))
  | .Size => .KV "size" (some (toString size))
  | .Environment name =>
      match envVar env name with
      | some v => .KV name (some v)
      | none => .KV name none
  | f => f

/-- A compiled exclusion matcher: `Regex` compilation is an external
collaborator, so a compiled regex is embedded as the predicate
`Regex::is_match` it denotes. -/
def Matcher := String → Bool

/-- `struct Inner` of `logger.rs`: the shared middleware configuration.
`fields` is the `ListFields` vector (the order the `HashSet<Field>`
iteration happened to produce at construction); `exclude` is the exact-path
`HashSet<String>` (membership is all that is consumed of it);
`exclude_regex` is the `Vec<Regex>` in push order. -/
structure Inner where
  fields : List Field
  exclude : List String
  exclude_regex : List Matcher
  log_target : String

/-- The exclusion decision inlined in `SLoggerMiddlewareService::call`:
`self.inner.exclude.contains(req.path()) ||
 self.inner.exclude_regex.iter().any(|r| r.is_match(req.path()))`. -/
def Inner.excluded (inner : Inner) (path : String) : Bool :=
  inner.exclude.contains path || inner.exclude_regex.any (fun r => r path)

/-- The state of a `SLoggerResponse` future as produced by
`SLoggerMiddlewareService::call` (the service-call future itself is driven
separately; see `runRequest`). -/
structure SLoggerResponse where
  time : Int
  fields : Option (List Field)
  log_target : String
deriving Repr

/-- `SLoggerMiddlewareService::call`: decide exclusion; when participating,
run the request-time pass over a clone of the configured fields. -/
def SLoggerMiddlewareService.call (inner : Inner) (now : Int) (freshId : String)
    (req : ServiceRequest) : SLoggerResponse :=
  if inner.excluded req.path then
    { time := now, fields := none, log_target := "" }
  else
    { time := now,
      fields := some (inner.fields.map (Field.render_request now freshId req)),
      log_target := inner.log_target }

/-- The `StreamLog<B>` body wrapper: accumulated `size`, arrival `time`,
the (optional) field list and the log target. -/
structure StreamLog where
  fields : Option (List Field)
  size : Nat
  time : Int
  log_target : String
deriving Repr

/-- One event observed when polling the wrapped body, in the image of
`Poll<Option<Result<Bytes, E>>>`: `pending` is `Poll::Pending` (propagated
by `ready!`), `data` a chunk, `error` an error value, `eos` end-of-stream. -/
inductive BodyPoll (E : Type) where
  | pending
  | data (chunk : List Nat)
  | error (e : E)
  | eos
deriving DecidableEq, Repr

/-- `<StreamLog as MessageBody>::poll_next`: yields the underlying body's
event and the updated wrapper state; on a data chunk the byte counter grows
by the chunk length, otherwise the state is untouched. -/
def StreamLog.poll_next {E : Type} (s : StreamLog) (ev : BodyPoll E) :
    BodyPoll E × StreamLog :=
  match ev with
  | .pending => (.pending, s)
  | .data chunk => (.data chunk, { s with size := s.size + chunk.length })
  | .error e => (.error e, s)
  | .eos => (.eos, s)

/-- Severity levels of the `log` crate. -/
inductive Level where
  | error | warn | info | debug | trace
deriving DecidableEq, Repr

/-- The record handed to `log::logger().log(...)` by
`wrapper.rs::rust_log::log` (the parts the claims are about: level, target
and the key-value sequence). -/
structure Record where
  level : Level
  target : String
  kvs : List (String × Option String)
deriving DecidableEq, Repr

/-- The `filter_map` arm of `wrapper.rs::rust_log::log`: a `Field::KV`
contributes its pair (`None` becoming a null value), every other variant is
dropped. -/
def Field.kvProj : Field → Option (String × Option String)
  | .KV k v => some (k, v)
  | _ => none

/-- `wrapper.rs::rust_log::log`: build the record from the rendered fields,
keeping only `Field::KV` entries in order. -/
def rust_log.log (level : Level) (target : String) (kv_fields : List Field) :
    Record :=
  { level := level, target := target, kvs := kv_fields.filterMap Field.kvProj }

/-- `<StreamLog as PinnedDrop>::drop`: when fields are present, run the
completion pass over them with the accumulated size and stored arrival time
and emit exactly one record at `log::Level::Info` with the stored target;
when `fields` is `None` (excluded request), emit nothing. `now` is the
timestamp `OffsetDateTime::now_utc()` yields during the drop; `env` the
process environment. -/
def StreamLog.dropEmit (now : Int) (env : List (String × String))
    (s : StreamLog) : List Record :=
  match s.fields with
  | some fs =>
      [rust_log.log .info s.log_target
        (fs.map (Field.render now env s.size s.time))]
  | none => []

/-- Drive the wrapped body through a list of streamed chunks (each chunk an
event accepted from the underlying body via `StreamLog.poll_next`). -/
def streamBody (s : StreamLog) (chunks : List (List Nat)) : StreamLog :=
  chunks.foldl (fun st c => (StreamLog.poll_next (E := Unit) st (.data c)).2) s

/-- How a request terminates, as observed by the middleware:

* `cancelledBeforeResponse`: the `SLoggerResponse` future is dropped before
  the inner service yields (client disconnect / task cancellation before a
  response exists). `SLoggerResponse` has no `Drop` glue: its
  `Option<ListFields>` is destroyed silently.
* `handlerErr`: the inner service resolved to `Err(err)`;
  `SLoggerResponse::poll` returns `Poll::Ready(Err(err))` without building
  a `StreamLog` and the fields are destroyed silently.
* `responded res chunks completed`: the inner service yielded the response
  `res`; the response-time pass runs, the body is wrapped in `StreamLog`,
  `chunks` lists the data chunks actually streamed before the body
  terminated, and `completed` records whether the stream reached
  end-of-stream (`true`) or the body was dropped early (`false`) — either
  way the wrapper is eventually destroyed and `PinnedDrop` fires. -/
inductive RequestEnd where
  | cancelledBeforeResponse
  | handlerErr (e : String)
  | responded (res : ServiceResponse) (chunks : List (List Nat)) (completed : Bool)

/-- The whole per-request lifecycle of the middleware, yielding the list of
records emitted for this request: `call` (exclusion decision + request-time
pass), then the `SLoggerResponse` future's outcome, then — only when a
response was produced — the response-time pass, body streaming through
`StreamLog` and the `PinnedDrop` emission. `dropNow` is the wall-clock at
the drop, `env` the process environment at the drop. -/
def runRequest (inner : Inner) (now : Int) (freshId : String)
    (req : ServiceRequest) (reqEnd : RequestEnd) (dropNow : Int)
    (env : List (String × String)) : List Record :=
  let resp := SLoggerMiddlewareService.call inner now freshId req
  match reqEnd with
  | .cancelledBeforeResponse => []
  | .handlerErr _ => []
  | .responded res chunks _ =>
      let fields := resp.fields.map (fun fs => fs.map (Field.render_response res))
      let sl : StreamLog :=
        { fields := fields, size := 0, time := resp.time,
          log_target := resp.log_target }
      StreamLog.dropEmit dropNow env (streamBody sl chunks)

/-- Outcome of a construction step that may `unwrap`: `crash` models a Rust
panic (an `unwrap()` on a failed parse). The source offers no error-return
path for construction. -/
inductive BuildOutcome (A : Type) where
  | ok (a : A)
  | crash

/-- `SLogger::exclude_regex`: `Regex::new(&path.into()).unwrap()` pushed
onto the vector. `compile` is the external collaborator `Regex::new`,
returning `none` exactly when the pattern does not compile; an invalid
pattern therefore panics at configuration time. -/
def SLogger.exclude_regex (compile : String → Option Matcher) (inner : Inner)
    (pat : String) : BuildOutcome Inner :=
  match compile pat with
  | some r => .ok { inner with exclude_regex := inner.exclude_regex ++ [r] }
  | none => .crash

/-- `HashSet::insert` on the builder's field set: an already-present
element is kept once. -/
def hashsetInsert (s : List Field) (f : Field) : List Field :=
  if f ∈ s then s else s ++ [f]

/-- `FieldsBuilder::with_request_id`:
`HeaderName::try_from(header).unwrap()` inserted into the field set.
`tryFrom` is the external collaborator `HeaderName::try_from` (yielding the
normalised lowercase name, `none` when the string is not a valid header
name); an invalid name therefore panics at configuration time. -/
def FieldsBuilder.with_request_id (tryFrom : String → Option String)
    (fields : List Field) (header : String) : BuildOutcome (List Field) :=
  match tryFrom header with
  | some name => .ok (hashsetInsert fields (.RequestId name))
  | none => .crash

/-- The field kinds `render_request` rewrites (every other field is hit by
that pass's catch-all `_ => {}` arm). -/
def Field.requestRelevant : Field → Bool
  | .Method | .Version | .Path | .Params | .Host | .RemoteAddr | .RealIp
  | .RequestId _ | .RequestHeader _ | .RequestTime | .UserAgent | .Referer => true
  | _ => false

/-- The field kinds `render_response` rewrites. -/
def Field.responseRelevant : Field → Bool
  | .Status | .ResponseHeader _ => true
  | _ => false

/-- The field kinds the completion-pass `render` rewrites. -/
def Field.completionRelevant : Field → Bool
  | .Size | .Duration | .DurationMillis | .Environment _ => true
  | _ => false

/-- Whether a field has reached its rendered key/value state. -/
def Field.isKV : Field → Bool
  | .KV _ _ => true
  | _ => false

/-- The key/value pair of a rendered field (dummy pair for an unrendered
spec; only applied below to fields known to be rendered). -/
def Field.kvOf (f : Field) : String × Option String :=
  (Field.kvProj f).getD ("", none)

/-! ### Concrete fixtures used by witnesses and counterexamples -/

/-- The request of the spec's concrete scenario:
`GET /test?param=value` with `user-agent`, `referer` and `x-request-id`. -/
def reqT : ServiceRequest :=
  { method := "GET", path := "/test", queryString := "param=value",
    version := .http11, host := "localhost", peerAddr := none,
    realipRemoteAddr := none,
    headers := [("user-agent", ⟨some "test-agent"⟩),
                ("referer", ⟨some "https://example.com"⟩),
                ("x-request-id", ⟨some "test-id"⟩)] }

/-- A plain `200 OK` response with a content-type header. -/
def resT : ServiceResponse :=
  { status := "200 OK",
    headers := [("content-type", ⟨some "application/json"⟩)] }

/-- Configuration whose field vector iterates as `[Method, Path]`. -/
def innerMP : Inner :=
  { fields := [.Method, .Path], exclude := [], exclude_regex := [],
    log_target := "tgt" }

/-- The same configured field set with the other iteration order. -/
def innerPM : Inner :=
  { fields := [.Path, .Method], exclude := [], exclude_regex := [],
    log_target := "tgt" }

/-- Configuration logging only the response size. -/
def innerS : Inner :=
  { fields := [.Size], exclude := [], exclude_regex := [], log_target := "tgt" }

/-- Configuration excluding the exact path "/health". -/
def innerEx : Inner :=
  { fields := [.Method], exclude := ["/health"], exclude_regex := [],
    log_target := "tgt" }

/-- Configuration excluding paths by a pattern matching "/metrics". -/
def innerRx : Inner :=
  { fields := [.Method], exclude := [],
    exclude_regex := [fun s => s = "/metrics"], log_target := "tgt" }

/-- A request to the excluded exact path. -/
def reqHealth : ServiceRequest :=
  { reqT with path := "/health" }

/-- A request to the pattern-excluded path. -/
def reqMetrics : ServiceRequest :=
  { reqT with path := "/metrics" }

/-- A concrete stand-in for `Regex::new` that rejects the unbalanced
pattern "(" (as the regex crate does). -/
def toyCompile : String → Option Matcher :=
  fun s => if s = "(" then none else some (fun _ => false)

/-- A concrete stand-in for `Regex::new` that rejects the unclosed
character class "[" (as the regex crate does). -/
def toyCompileB : String → Option Matcher :=
  fun s => if s = "[" then none else some (fun _ => false)

/-- A concrete stand-in for `HeaderName::try_from` that rejects the empty
string and the name "bad name" (which contains a space). -/
def toyTryFrom : String → Option String :=
  fun s => if s = "" || s = "bad name" then none else some s

/-- A wrapper state holding one rendered and one never-rendered field. -/
def slW : StreamLog :=
  { fields := some [.KV "method" (some "GET"), .Status], size := 3, time := 0,
    log_target := "tgt" }

/-- A request whose `x-bin`, `user-agent` and `referer` headers carry bytes
that are not valid UTF-8 (`to_str()` fails on them). -/
def reqBin : ServiceRequest :=
  { reqT with headers := [("x-bin", ⟨none⟩), ("user-agent", ⟨none⟩),
                          ("referer", ⟨none⟩)] }

/-- A response whose `x-bin` header carries bytes that are not valid
UTF-8. -/
def resBin : ServiceResponse :=
  { status := "200 OK", headers := [("x-bin", ⟨none⟩)] }

/-! ### Helper lemmas -/

/-- Streaming a list of chunks only accumulates their total length into the
byte counter; every other component of the wrapper survives unchanged. -/
theorem streamBody_eq (s : StreamLog) (chunks : List (List Nat)) :
    streamBody s chunks
      = { s with size := s.size + (chunks.map List.length).sum } := by
  induction chunks generalizing s with
  | nil => simp [streamBody]
  | cons c cs ih =>
      show streamBody { s with size := s.size + c.length } cs = _
      rw [ih]
      simp [Nat.add_assoc]

/-- Unfolding of the participating, responded lifecycle: exactly the record
built from the three passes in order, with the completion pass seeing the
total number of bytes streamed. -/
theorem runRequest_responded_eq (inner : Inner) (now : Int) (freshId : String)
    (req : ServiceRequest) (res : ServiceResponse) (chunks : List (List Nat))
    (completed : Bool) (dropNow : Int) (env : List (String × String))
    (h : inner.excluded req.path = false) :
    runRequest inner now freshId req (.responded res chunks completed) dropNow env
      = [rust_log.log .info inner.log_target
          (((inner.fields.map (Field.render_request now freshId req)).map
              (Field.render_response res)).map
            (Field.render dropNow env ((chunks.map List.length).sum) now))] := by
  unfold runRequest SLoggerMiddlewareService.call
  rw [if_neg (by simp [h])]
  simp only [Option.map_some]
  rw [streamBody_eq]
  simp [StreamLog.dropEmit]

/-- The excluded lifecycle emits nothing, whatever the termination. -/
theorem runRequest_excluded_eq (inner : Inner) (now : Int) (freshId : String)
    (req : ServiceRequest) (reqEnd : RequestEnd) (dropNow : Int)
    (env : List (String × String)) (h : inner.excluded req.path = true) :
    runRequest inner now freshId req reqEnd dropNow env = [] := by
  unfold runRequest SLoggerMiddlewareService.call
  rw [if_pos (by simp [h])]
  cases reqEnd with
  | cancelledBeforeResponse => rfl
  | handlerErr e => rfl
  | responded res chunks completed =>
      show StreamLog.dropEmit dropNow env
        (streamBody { fields := none, size := 0, time := now, log_target := "" } chunks) = []
      rw [streamBody_eq]
      rfl

/-- After all three passes, every field has reached its key/value state. -/
theorem allPasses_isKV (now dropNow : Int) (freshId : String)
    (req : ServiceRequest) (res : ServiceResponse)
    (env : List (String × String)) (size : Nat) (entry : Int) (f : Field) :
    (Field.render dropNow env size entry
      (Field.render_response res (Field.render_request now freshId req f))).isKV
      = true := by
  cases f with
  | RequestId h =>
      cases hg : req.headers.get h <;>
        simp [Field.render_request, hg, Field.render_response, Field.render, Field.isKV]
  | RequestHeader h =>
      cases hg : req.headers.get h <;>
        simp [Field.render_request, hg, Field.render_response, Field.render, Field.isKV]
  | ResponseHeader h =>
      cases hg : res.headers.get h <;>
        simp [Field.render_request, Field.render_response, hg, Field.render, Field.isKV]
  | Environment n =>
      cases hg : envVar env n <;>
        simp [Field.render_request, Field.render_response, Field.render, hg, Field.isKV]
  | _ =>
      simp [Field.render_request, Field.render_response, Field.render, Field.isKV]

/-- On a list of rendered (key/value) fields, the emission filter keeps
every element, projecting it to its pair. -/
theorem filterMap_kvProj_eq_map (l : List Field)
    (h : ∀ f ∈ l, f.isKV = true) :
    l.filterMap Field.kvProj = l.map Field.kvOf := by
  induction l with
  | nil => rfl
  | cons a as ih =>
      have ha := h a (List.mem_cons_self a as)
      cases a with
      | KV k v =>
          show (k, v) :: as.filterMap Field.kvProj = (k, v) :: as.map Field.kvOf
          rw [ih (fun f hf => h f (List.mem_cons_of_mem _ hf))]
      | _ => simp [Field.isKV] at ha

/-- `kvProj` succeeds with a given pair exactly on that `KV` field. -/
theorem kvProj_eq_some_iff (f : Field) (k : String) (v : Option String) :
    Field.kvProj f = some (k, v) ↔ f = .KV k v := by
  cases f <;> simp [Field.kvProj]

/-! ### Claims -/

/-- C5: `StreamLog::poll_next` is a transparent proxy: every polled body
event is passed through unchanged (chunk bytes, error value, end-of-stream
and pending alike); on a data chunk the byte counter grows by exactly the
chunk's length and nothing else changes, and on pending, error and
end-of-stream events the wrapper state (byte counter included) is not
modified. -/
theorem c5_body_transparent_proxy {E : Type} (s : StreamLog) (ev : BodyPoll E) :
    (StreamLog.poll_next s ev).1 = ev
    ∧ (∀ chunk, ev = .data chunk →
        (StreamLog.poll_next s ev).2 = { s with size := s.size + chunk.length })
    ∧ ((ev = .pending ∨ (∃ e, ev = .error e) ∨ ev = .eos) →
        (StreamLog.poll_next s ev).2 = s) := by
  refine ⟨?_, ?_, ?_⟩
  · cases ev <;> rfl
  · intro chunk hc
    subst hc
    rfl
  · rintro (rfl | ⟨e, rfl⟩ | rfl) <;> rfl

/-- C5 witness: on a concrete two-byte chunk the chunk is passed through
and the counter grows by 2; a concrete end-of-stream leaves the state
untouched. -/
theorem c5_witness :
    (StreamLog.poll_next (E := Unit) slW (.data [7, 8])).2
        = { slW with size := slW.size + [7, 8].length }
    ∧ (StreamLog.poll_next (E := Unit) slW .eos).2 = slW :=
  ⟨(c5_body_transparent_proxy slW (.data [7, 8])).2.1 [7, 8] rfl,
   (c5_body_transparent_proxy slW .eos).2.2 (Or.inr (Or.inr rfl))⟩

/-- C6: each render pass leaves a field it is not relevant to unchanged
(identity), so one field collection is threaded through all three passes
with no caller-side branching; and an already-rendered `KV` field is
relevant to no pass, hence never rendered a second time. -/
theorem c6_irrelevant_pass_identity (now dropNow : Int) (freshId : String)
    (req : ServiceRequest) (res : ServiceResponse)
    (env : List (String × String)) (size : Nat) (entry : Int) (f : Field)
    (k : String) (v : Option String) :
    (Field.requestRelevant f = false →
        Field.render_request now freshId req f = f)
    ∧ (Field.responseRelevant f = false → Field.render_response res f = f)
    ∧ (Field.completionRelevant f = false →
        Field.render dropNow env size entry f = f)
    ∧ (Field.requestRelevant (.KV k v) = false
        ∧ Field.responseRelevant (.KV k v) = false
        ∧ Field.completionRelevant (.KV k v) = false) := by
  refine ⟨?_, ?_, ?_, rfl, rfl, rfl⟩
  · intro h
    cases f <;> first
      | rfl
      | simp [Field.requestRelevant] at h
  · intro h
    cases f <;> first
      | rfl
      | simp [Field.responseRelevant] at h
  · intro h
    cases f <;> first
      | rfl
      | simp [Field.completionRelevant] at h

/-- C6 witness: the response-only `Status` spec passes through the
request-time pass unchanged, and a rendered `KV` passes through the
completion pass unchanged. -/
theorem c6_witness :
    Field.render_request 0 "id" reqT .Status = .Status
    ∧ Field.render 9 [] 3 0 (.KV "method" (some "GET"))
        = .KV "method" (some "GET") :=
  ⟨(c6_irrelevant_pass_identity 0 9 "id" reqT resT [] 3 0 .Status "k" none).1
      (by decide),
   (c6_irrelevant_pass_identity 0 9 "id" reqT resT [] 3 0
      (.KV "method" (some "GET")) "k" none).2.2.1 (by decide)⟩

/-- C7: a header value whose bytes are not valid UTF-8 (`to_str()` fails)
renders as the empty string, for every header-consuming spec: request-id,
request header, user-agent, referer and response header; rendering never
propagates the decode failure. -/
theorem c7_non_utf8_degrades_to_empty (now : Int) (freshId h : String)
    (req : ServiceRequest) (res : ServiceResponse) :
    (req.headers.get h = some ⟨none⟩ →
        Field.render_request now freshId req (.RequestId h) = .KV h (some ""))
    ∧ (req.headers.get h = some ⟨none⟩ →
        Field.render_request now freshId req (.RequestHeader h)
          = .KV h (some ""))
    ∧ (req.headers.get "user-agent" = some ⟨none⟩ →
        Field.render_request now freshId req .UserAgent
          = .KV "user_agent" (some ""))
    ∧ (req.headers.get "referer" = some ⟨none⟩ →
        Field.render_request now freshId req .Referer
          = .KV "referer" (some ""))
    ∧ (res.headers.get h = some ⟨none⟩ →
        Field.render_response res (.ResponseHeader h) = .KV h (some "")) := by
  refine ⟨fun hh => ?_, fun hh => ?_, fun hh => ?_, fun hh => ?_, fun hh => ?_⟩ <;>
    simp [Field.render_request, Field.render_response, hh]

/-- C7 witness: a request and response carrying a non-UTF-8 `x-bin` header
and non-UTF-8 `user-agent`/`referer` all render as empty strings. -/
theorem c7_witness :
    Field.render_request 0 "id" reqBin (.RequestId "x-bin") = .KV "x-bin" (some "")
    ∧ Field.render_request 0 "id" reqBin (.RequestHeader "x-bin")
        = .KV "x-bin" (some "")
    ∧ Field.render_request 0 "id" reqBin .UserAgent = .KV "user_agent" (some "")
    ∧ Field.render_request 0 "id" reqBin .Referer = .KV "referer" (some "")
    ∧ Field.render_response resBin (.ResponseHeader "x-bin")
        = .KV "x-bin" (some "") :=
  ⟨(c7_non_utf8_degrades_to_empty 0 "id" "x-bin" reqBin resBin).1 (by decide),
   (c7_non_utf8_degrades_to_empty 0 "id" "x-bin" reqBin resBin).2.1 (by decide),
   (c7_non_utf8_degrades_to_empty 0 "id" "x-bin" reqBin resBin).2.2.1 (by decide),
   (c7_non_utf8_degrades_to_empty 0 "id" "x-bin" reqBin resBin).2.2.2.1 (by decide),
   (c7_non_utf8_degrades_to_empty 0 "id" "x-bin" reqBin resBin).2.2.2.2 (by decide)⟩

/-- C8: at the completion pass, the duration-in-seconds and the
duration-in-milliseconds specs both render under the same key "duration";
the quantities being formatted are the elapsed time since arrival as
fractional seconds and fractional milliseconds respectively (the
millisecond quantity is exactly 1000 times the second quantity). -/
theorem c8_duration_shared_key (now : Int) (env : List (String × String))
    (size : Nat) (entry : Int) :
    Field.render now env size entry .Duration
      = .KV "duration" (some (f64Str (secondsF (now - entry))))
    ∧ Field.render now env size entry .DurationMillis
      = .KV "duration" (some (f64Str (millisF (now - entry))))
    ∧ millisF (now - entry) = 1000 * secondsF (now - entry) := by
  refine ⟨rfl, rfl, ?_⟩
  unfold millisF secondsF
  ring

/-- C9: the spec's concrete scenario — `GET /test?param=value` with
`user-agent: test-agent`, `referer: https://example.com`,
`x-request-id: test-id` and the fields {Method, Path, QueryParams,
UserAgent, Referer, RequestId("x-request-id")} — renders at request time to
exactly method=GET, path=/test, params=param=value, user_agent=test-agent,
referer=https://example.com, x-request-id=test-id. -/
theorem c9_concrete_request_scenario :
    [Field.Method, Field.Path, Field.Params, Field.UserAgent, Field.Referer,
        Field.RequestId "x-request-id"].map
      (Field.render_request 0 "generated" reqT)
      = [.KV "method" (some "GET"), .KV "path" (some "/test"),
         .KV "params" (some "param=value"), .KV "user_agent" (some "test-agent"),
         .KV "referer" (some "https://example.com"),
         .KV "x-request-id" (some "test-id")] := by decide

/-- C1 counterexample: a participating request (nothing excludes "/test")
whose handler resolves to an error before any response exists emits zero
records, not one — `SLoggerResponse` has no drop glue, so its fields are
destroyed silently. -/
theorem c1_counterexample :
    innerMP.excluded reqT.path = false
    ∧ (runRequest innerMP 0 "id" reqT (.handlerErr "boom") 0 []).length = 0 :=
  ⟨rfl, rfl⟩

/-- C1 (amended): once the handler has produced a response — so the wrapped
`StreamLog` body exists — exactly one record is emitted regardless of how
the body terminates (any prefix of chunks, completed or dropped early), and
when the size field is configured its value is the count of bytes actually
streamed. -/
theorem c1_single_emission_after_response (inner : Inner) (now : Int)
    (freshId : String) (req : ServiceRequest) (res : ServiceResponse)
    (chunks : List (List Nat)) (completed : Bool) (dropNow : Int)
    (env : List (String × String)) (h : inner.excluded req.path = false) :
    (runRequest inner now freshId req (.responded res chunks completed)
        dropNow env).length = 1
    ∧ (Field.Size ∈ inner.fields →
        ∀ rec ∈ runRequest inner now freshId req (.responded res chunks completed)
            dropNow env,
          ("size", some (toString ((chunks.map List.length).sum))) ∈ rec.kvs) := by
  rw [runRequest_responded_eq inner now freshId req res chunks completed dropNow
    env h]
  refine ⟨rfl, ?_⟩
  intro hS rec hrec
  rcases List.mem_singleton.mp hrec with rfl
  have h1 : Field.Size ∈ inner.fields.map (Field.render_request now freshId req) :=
    List.mem_map_of_mem _ hS
  have h2 : Field.Size ∈ (inner.fields.map (Field.render_request now freshId req)).map
      (Field.render_response res) :=
    List.mem_map_of_mem _ h1
  have h3 : Field.KV "size" (some (toString ((chunks.map List.length).sum)))
      ∈ ((inner.fields.map (Field.render_request now freshId req)).map
          (Field.render_response res)).map
        (Field.render dropNow env ((chunks.map List.length).sum) now) :=
    List.mem_map_of_mem _ h2
  exact List.mem_filterMap.mpr ⟨_, h3, rfl⟩

/-- C1 witness: a concrete participating request whose body is dropped
early after streaming chunks of 2 and 1 bytes still emits exactly one
record. -/
theorem c1_witness :
    (runRequest innerS 0 "id" reqT (.responded resT [[1, 2], [3]] false) 5
        []).length = 1 :=
  (c1_single_emission_after_response innerS 0 "id" reqT resT [[1, 2], [3]]
    false 5 [] (by decide)).1

/-- C2 counterexample: `[Path, Method]` and `[Method, Path]` are the same
configured field set (a permutation — both are iteration orders the
backing `HashSet` may produce), yet the two runs put the output fields in
different orders: insertion order is not what the output order follows. -/
theorem c2_counterexample :
    List.Perm [Field.Path, Field.Method] [Field.Method, Field.Path]
    ∧ (runRequest innerPM 0 "id" reqT (.responded resT [] true) 0 []).map
        Record.kvs
      ≠ (runRequest innerMP 0 "id" reqT (.responded resT [] true) 0 []).map
        Record.kvs := by
  constructor
  · exact List.Perm.swap Field.Method Field.Path []
  · decide

/-- C2 (amended): the order that is deterministic is the `ListFields`
vector order fixed when the configured `HashSet` is converted at
construction: that order is preserved unchanged through the request-time,
response-time and completion passes and into the emitted record's key/value
sequence. -/
theorem c2_listfields_order_preserved (inner : Inner) (now : Int)
    (freshId : String) (req : ServiceRequest) (res : ServiceResponse)
    (chunks : List (List Nat)) (completed : Bool) (dropNow : Int)
    (env : List (String × String)) (h : inner.excluded req.path = false) :
    (runRequest inner now freshId req (.responded res chunks completed)
        dropNow env).map Record.kvs
      = [inner.fields.map (fun f => Field.kvOf
          (Field.render dropNow env ((chunks.map List.length).sum) now
            (Field.render_response res
              (Field.render_request now freshId req f))))] := by
  rw [runRequest_responded_eq inner now freshId req res chunks completed dropNow
    env h]
  show [(((inner.fields.map (Field.render_request now freshId req)).map
      (Field.render_response res)).map
        (Field.render dropNow env ((chunks.map List.length).sum) now)).filterMap
      Field.kvProj] = _
  rw [filterMap_kvProj_eq_map]
  · rw [List.map_map, List.map_map, List.map_map]
    rfl
  · intro f hf
    rcases List.mem_map.mp hf with ⟨g2, hg2, rfl⟩
    rcases List.mem_map.mp hg2 with ⟨g1, hg1, rfl⟩
    rcases List.mem_map.mp hg1 with ⟨g0, _, rfl⟩
    exact allPasses_isKV now dropNow freshId req res env
      ((chunks.map List.length).sum) now g0

/-- C2 witness: for the concrete `[Method, Path]` run the emitted key/value
sequence follows the vector order elementwise. -/
theorem c2_witness :
    (runRequest innerMP 0 "id" reqT (.responded resT [] true) 0 []).map
        Record.kvs
      = [innerMP.fields.map (fun f => Field.kvOf
          (Field.render 0 [] ((([] : List (List Nat)).map List.length).sum) 0
            (Field.render_response resT (Field.render_request 0 "id" reqT f))))] :=
  c2_listfields_order_preserved innerMP 0 "id" reqT resT [] true 0 []
    (by decide)

/-- C3: the exclusion decision holds exactly when the path is in the exact
set or some configured matcher accepts it (false when no rule matches);
the exact set is consulted first (`||` short-circuit), a matching pattern
decides `true` no matter what comes after it in the configured order; and
for every excluded request no field collection is created and no record is
ever emitted, however the request terminates. -/
theorem c3_exclusion_semantics (inner : Inner) (now dropNow : Int)
    (freshId : String) (req : ServiceRequest) (reqEnd : RequestEnd)
    (env : List (String × String)) :
    (inner.excluded req.path = true ↔
      req.path ∈ inner.exclude ∨ ∃ r ∈ inner.exclude_regex, r req.path = true)
    ∧ (∀ (rs₁ : List Matcher) (r : Matcher) (rs₂ : List Matcher),
        inner.exclude_regex = rs₁ ++ r :: rs₂ → r req.path = true →
        inner.excluded req.path = true)
    ∧ (inner.excluded req.path = true →
        (SLoggerMiddlewareService.call inner now freshId req).fields = none
        ∧ runRequest inner now freshId req reqEnd dropNow env = []) := by
  have hiff : inner.excluded req.path = true ↔
      req.path ∈ inner.exclude ∨ ∃ r ∈ inner.exclude_regex, r req.path = true := by
    unfold Inner.excluded
    simp [List.any_eq_true]
  refine ⟨hiff, ?_, ?_⟩
  · intro rs₁ r rs₂ hsplit hr
    refine hiff.mpr (Or.inr ⟨r, ?_, hr⟩)
    rw [hsplit]
    exact List.mem_append_right rs₁ (List.mem_cons_self r rs₂)
  · intro h
    refine ⟨?_, runRequest_excluded_eq inner now freshId req reqEnd dropNow env h⟩
    unfold SLoggerMiddlewareService.call
    rw [if_pos (by simp [h])]

/-- C3 witness: a request to the exactly-excluded "/health" and a request
to the pattern-excluded "/metrics" both create no field collection and emit
no record. -/
theorem c3_witness :
    ((SLoggerMiddlewareService.call innerEx 0 "id" reqHealth).fields = none
      ∧ runRequest innerEx 0 "id" reqHealth .cancelledBeforeResponse 0 [] = [])
    ∧ ((SLoggerMiddlewareService.call innerRx 0 "id" reqMetrics).fields = none
      ∧ runRequest innerRx 0 "id" reqMetrics (.responded resT [] true) 0 []
          = []) :=
  ⟨(c3_exclusion_semantics innerEx 0 0 "id" reqHealth .cancelledBeforeResponse
      []).2.2 (by decide),
   (c3_exclusion_semantics innerRx 0 0 "id" reqMetrics (.responded resT [] true)
      []).2.2 (by decide)⟩

/-- C4 counterexample: an invalid exclusion pattern ("(") and an invalid
header-name string ("bad name") make construction panic (`unwrap`), not
return an error result: the failure is a crash, contradicting the claim's
"an error result, not a crash". -/
theorem c4_counterexample :
    SLogger.exclude_regex toyCompile innerMP "(" = .crash
    ∧ FieldsBuilder.with_request_id toyTryFrom [] "bad name" = .crash :=
  ⟨rfl, rfl⟩

/-- C4 (amended): for every invalid exclusion pattern and every invalid
header-name string, construction fails immediately at configuration time —
before any pipeline exists, never deferred to request time — but by
panicking on `unwrap`, not by returning an error value to the caller. -/
theorem c4_construction_crashes_on_invalid (compile : String → Option Matcher)
    (tryFrom : String → Option String) (inner : Inner) (fields : List Field)
    (pat header : String) (h1 : compile pat = none)
    (h2 : tryFrom header = none) :
    SLogger.exclude_regex compile inner pat = .crash
    ∧ FieldsBuilder.with_request_id tryFrom fields header = .crash := by
  constructor
  · unfold SLogger.exclude_regex
    rw [h1]
  · unfold FieldsBuilder.with_request_id
    rw [h2]

/-- C4 witness: the concrete invalid pattern "[" and the concrete empty
header name both crash construction. -/
theorem c4_witness :
    SLogger.exclude_regex toyCompileB innerMP "[" = .crash
    ∧ FieldsBuilder.with_request_id toyTryFrom [] "" = .crash :=
  c4_construction_crashes_on_invalid toyCompileB toyTryFrom innerMP [] "[" ""
    rfl rfl

/-- C10: dropping a wrapper that still holds its field collection emits
exactly one record, at severity Info with the stored (configured) log
target, and that record's key/value sequence contains a pair exactly when
the completion-pass output contains the corresponding rendered `KV` field —
every field that never reached the key/value state is silently omitted. -/
theorem c10_emission_filters_rendered (s : StreamLog) (fs : List Field)
    (dropNow : Int) (env : List (String × String)) (h : s.fields = some fs) :
    StreamLog.dropEmit dropNow env s
      = [rust_log.log .info s.log_target
          (fs.map (Field.render dropNow env s.size s.time))]
    ∧ ∀ k v,
        ((k, v) ∈ (rust_log.log .info s.log_target
            (fs.map (Field.render dropNow env s.size s.time))).kvs
          ↔ Field.KV k v ∈ fs.map (Field.render dropNow env s.size s.time)) := by
  constructor
  · unfold StreamLog.dropEmit
    rw [h]
  · intro k v
    show (k, v) ∈ (fs.map (Field.render dropNow env s.size s.time)).filterMap
        Field.kvProj ↔ _
    rw [List.mem_filterMap]
    constructor
    · rintro ⟨f, hf, hp⟩
      rw [(kvProj_eq_some_iff f k v).mp hp] at hf
      exact hf
    · intro hm
      exact ⟨_, hm, rfl⟩

/-- C10 witness: dropping a wrapper holding one rendered field and one
never-rendered `Status` spec emits the single Info record with the stored
target. -/
theorem c10_witness :
    StreamLog.dropEmit 9 [] slW
      = [rust_log.log .info slW.log_target
          ([Field.KV "method" (some "GET"), Field.Status].map
            (Field.render 9 [] slW.size slW.time))] :=
  (c10_emission_filters_rendered slW [.KV "method" (some "GET"), .Status] 9 []
    rfl).1

end Slogger
